import Mathlib

/-!
Verification of the Moonlight Logs worker (src/src/worker.ts, first revision,
whose line numbers the analysed properties cite).

The worker is a CloudFlare Workers `fetch` handler.  We give a shallow
embedding: request data, the environment bindings, the KV store and the
produced `Response` become Lean structures, and the handler becomes a pure
function `fetch` from those to an `Outcome`.  JavaScript truthiness of the
values the code tests (`!contentType`, `!name`, `!content`,
`metadata.lastModified`, ...) is modelled explicitly, as are the string
operations the code uses (`String.prototype.endsWith`, `includes`, the UUID
regular expression).  Nondeterministic or ambient inputs of the code are
parameters of the function: the generated UUID (`crypto.randomUUID`), the
clock (`Date.now`), and whether each KV call throws.  HTML page texts and
`Date.prototype.toUTCString` rendering are runtime or presentation material
that no analysed property touches; pages are kept as structured values
recording exactly the data the code injects into them.
-/

/-- JavaScript `String.prototype.endsWith`: the receiver ends with the
argument.  Modelled on the character lists of the strings. -/
def jsEndsWith (s suffix : String) : Bool :=
  decide (suffix.data <:+ s.data)

/-- JavaScript `String.prototype.includes`: the receiver contains the
argument as a contiguous substring. -/
def jsIncludes (s sub : String) : Bool :=
  decide (sub.data <:+: s.data)

/-- JavaScript truthiness of a nullable string (`null` and `""` are falsy). -/
def jsTruthyStr : Option String → Bool
  | some s => decide (s ≠ "")
  | none => false

/-- JavaScript truthiness of a nullable number (`null` and `0` are falsy). -/
def jsTruthyNat : Option Nat → Bool
  | some n => decide (n ≠ 0)
  | none => false

/-- `validateFilename` from worker.ts lines 18-23: a name is valid when it
ends with `.txt`, `.log` or `.dmp`. -/
def validateFilename (filename : String) : Bool :=
  if jsEndsWith filename ".txt" || jsEndsWith filename ".log" || jsEndsWith filename ".dmp" then
    true
  else
    false

/-- Lowercase hexadecimal digit, the character class `[0-9a-f]` of
`UUID_REGEX`. -/
def isLowerHexDigit (c : Char) : Bool :=
  c.isDigit || (decide ('a' ≤ c) && decide (c ≤ 'f'))

/-- `UUID_REGEX` from worker.ts line 7: anchored 8-4-4-4-12 groups of
lowercase hexadecimal digits separated by hyphens (total length 36, hyphens
at indices 8, 13, 18, 23). -/
def matchesUUID (s : String) : Bool :=
  let cs := s.data
  cs.length == 36 &&
    (List.range 36).all fun i =>
      if i == 8 || i == 13 || i == 18 || i == 23 then
        cs.getD i ' ' == '-'
      else
        isLowerHexDigit (cs.getD i ' ')

/-- `KVMetadata` from worker.ts line 10: all fields optional. -/
structure KVMetadata where
  name : Option String
  type : Option String
  size : Option Nat
  lastModified : Option Nat
  uploadedAt : Option Nat
deriving DecidableEq, Repr

/-- One stored KV record: the byte value and its attached metadata. -/
structure KVEntry where
  value : List Nat
  metadata : Option KVMetadata
deriving DecidableEq, Repr

/-- The KV namespace contents, keyed by the storage key. -/
def KVStore := List (String × KVEntry)
deriving DecidableEq, Repr

/-- KV `put`: stores the entry under the key, replacing any previous one. -/
def kvPut (store : KVStore) (key : String) (entry : KVEntry) : KVStore :=
  (key, entry) :: List.filter (fun p => !(p.1 == key)) store

/-- KV `getWithMetadata`: the entry stored under the key, when present. -/
def kvGet (store : KVStore) (key : String) : Option KVEntry :=
  (List.find? (fun p => p.1 == key) store).map (·.2)

/-- KV `delete`: removes the key; idempotent. -/
def kvDelete (store : KVStore) (key : String) : KVStore :=
  List.filter (fun p => !(p.1 == key)) store

/-- Response headers as a key-value list. -/
def Headers := List (String × String)
deriving DecidableEq, Repr

/-- `Headers.set`: replaces any existing value for the key. -/
def hset (hs : Headers) (key value : String) : Headers :=
  List.filter (fun p => !(p.1 == key)) hs ++ [(key, value)]

/-- `Headers.get`: the value currently held for the key, if any. -/
def hget (hs : Headers) (key : String) : Option String :=
  (List.find? (fun p => p.1 == key) hs).map (·.2)

/-- HTML pages the worker renders through `pageTemplate`, kept as structured
values recording the data the code injects (the boilerplate text of the
template and the static pages never varies and no analysed property reads
it). -/
inductive PageKind where
  /-- The static homepage with the upload and download forms. -/
  | home
  /-- The upload confirmation page, with the share URL injected into it. -/
  | uploadSuccess (redirectURL : String)
deriving DecidableEq, Repr

/-- Response bodies the worker produces. -/
inductive Body where
  /-- `null` body. -/
  | empty
  /-- A short plain-text body. -/
  | text (s : String)
  /-- Raw bytes (the stored file content on download). -/
  | bytes (b : List Nat)
  /-- A rendered HTML page. -/
  | page (p : PageKind)
deriving DecidableEq, Repr

/-- An HTTP response: status, body, headers.  A `Response` built without an
explicit status has status 200. -/
structure Response where
  status : Nat
  body : Body
  headers : Headers
deriving DecidableEq, Repr

/-- Result of one `fetch` invocation: a response together with the KV store
left behind, an unhandled runtime error, or the pass-through subrequest of
the favicon route. -/
inductive Outcome where
  | ok (resp : Response) (kv : KVStore)
  | crash (reason : String)
  | externalFetch (url : String)
deriving DecidableEq, Repr

/-- The `Env` bindings from the worker configuration. The three `Throws`
flags model whether the corresponding KV call raises an exception when the
handler reaches it. -/
structure Env where
  maxFileSize : Nat
  expirationTtl : Nat
  adminToken : String
  putThrows : Bool
  getThrows : Bool
  deleteThrows : Bool
deriving DecidableEq, Repr

/-- The `file` entry of a parsed multipart form: a `File` with a name, a
declared MIME type and byte content. -/
structure FormFile where
  name : String
  type : String
  content : List Nat
deriving DecidableEq, Repr

/-- An inbound HTTP request, reduced to the data the worker reads: method,
URL pieces (`pathname`, origin, the `id` and `name` query parameters), the
headers it consults, the raw body bytes, and the `file` part that
`formData().get` would return (absent when the form has no such part). -/
structure Request where
  method : String
  pathname : String
  origin : String
  queryId : Option String
  queryName : Option String
  contentType : Option String
  accept : Option String
  authorization : Option String
  body : List Nat
  formFile : Option FormFile
deriving DecidableEq, Repr

/-- `Date.prototype.toUTCString` is a runtime builtin; modelled as an
abstract rendering of the millisecond timestamp. -/
def dateToUTCString (ms : Nat) : String :=
  toString ms

/-- A short text response carrying only the CORS header, the shape of every
error response of the three API routes. -/
def corsText (s : String) (code : Nat) : Response :=
  ⟨code, Body.text s, [("Access-Control-Allow-Origin", "*")]⟩

/-- Lines 266-289 of the download route: the response headers, built from
defaults keyed on the requested `uuid` and then overridden field by field
from the stored metadata when the corresponding field is truthy. -/
def downloadHeaders (uuid : String) (metadata : Option KVMetadata) : Headers :=
  let h0 :=
    hset
      (hset (hset [] "Content-Type" "text/plain; charset=UTF-8")
        "Content-Disposition" ("attachment; filename=\"" ++ uuid ++ ".txt\""))
      "Access-Control-Allow-Origin" "*"
  match metadata with
  | none => h0
  | some m =>
    let h1 :=
      if jsTruthyStr m.type then hset h0 "Content-Type" (m.type.getD "") else h0
    let h2 :=
      if jsTruthyStr m.name then
        hset h1 "Content-Disposition"
          ("attachment; filename=\"" ++ m.name.getD "" ++ "\"")
      else h1
    if jsTruthyNat m.lastModified then
      hset h2 "Last-Modified" (dateToUTCString (m.lastModified.getD 0))
    else h2

/-- Lines 178-238 of the upload route, entered once a supported content type
branch has produced the declared `type`, the extracted `content` and the
resolved `name`: the content, size and filename checks, the KV `put`, and
the success response (HTML confirmation when the `Accept` header contains
`text/html`, machine-readable 201 otherwise). -/
def storeUpload (req : Request) (env : Env) (kv : KVStore) (uuid : String) (now : Nat)
    (ty : String) (content : Option (List Nat)) (name : Option String) : Outcome :=
  match content with
  | none => Outcome.ok (corsText "Invalid Contents" 400) kv
  | some c =>
    if c.length > env.maxFileSize then
      Outcome.ok (corsText "Payload Too Large" 413) kv
    else if !(jsTruthyStr name) || !(validateFilename (name.getD "")) then
      Outcome.ok (corsText "Invalid File Name" 400) kv
    else if env.putThrows then
      Outcome.ok (corsText "Internal Server Error" 500) kv
    else
      let metadata : KVMetadata :=
        ⟨name, some ty, some c.length, some now, some now⟩
      let kv2 := kvPut kv uuid ⟨c, some metadata⟩
      let redirectURL := req.origin ++ "/?id=" ++ uuid
      if jsTruthyStr req.accept && jsIncludes (req.accept.getD "") "text/html" then
        Outcome.ok
          ⟨200, Body.page (PageKind.uploadSuccess redirectURL),
            [("Content-Type", "text/html;charset=UTF-8")]⟩ kv2
      else
        Outcome.ok
          ⟨201, Body.text redirectURL,
            [("Location", redirectURL),
             ("Expires", dateToUTCString (now + env.expirationTtl * 1000)),
             ("Access-Control-Allow-Origin", "*"),
             ("Access-Control-Expose-Headers", "Location")]⟩ kv2

/-- The worker `fetch` handler (worker.ts lines 75-337).  `uuid` is the
value `crypto.randomUUID()` returns on this invocation and `now` the value
of `Date.now()`. -/
def fetch (req : Request) (env : Env) (kv : KVStore) (uuid : String) (now : Nat) : Outcome :=
  if req.pathname = "/" then
    -- Options and CORS route
    if req.method = "OPTIONS" then
      Outcome.ok
        ⟨204, Body.empty,
          [("Allow", "GET, POST, DELETE, OPTIONS"),
           ("Access-Control-Allow-Origin", "*"),
           ("Access-Control-Allow-Methods", "GET, POST, DELETE"),
           ("Access-Control-Allow-Headers", "Authorization"),
           ("Access-Control-Max-Age", "86400")]⟩ kv
    -- Homepage route
    else if req.method = "GET" ∧ req.queryId = none then
      Outcome.ok
        ⟨200, Body.page PageKind.home, [("Content-Type", "text/html;charset=UTF-8")]⟩ kv
    -- Upload route
    else if req.method = "POST" then
      if !(jsTruthyStr req.contentType) then
        Outcome.ok (corsText "Missing Content-Type" 400) kv
      else
        let ct := req.contentType.getD ""
        -- Text data
        if jsIncludes ct "text/plain" then
          storeUpload req env kv uuid now "text/plain; charset=UTF-8" (some req.body) req.queryName
        -- Binary data
        else if jsIncludes ct "application/octet-stream" then
          storeUpload req env kv uuid now "application/octet-stream" (some req.body) req.queryName
        -- Form data
        else if jsIncludes ct "multipart/form-data" then
          match req.formFile with
          | none =>
            -- `formData.get` returned null and the code dereferences it
            Outcome.crash "TypeError: null file part"
          | some f =>
            storeUpload req env kv uuid now f.type (some f.content)
              (if f.name ≠ "" then some f.name else none)
        else
          Outcome.ok (corsText "Unsupported Media Type" 415) kv
    -- Download route
    else if req.method = "GET" ∧ req.queryId.isSome then
      let u := req.queryId.getD ""
      if !(jsTruthyStr req.queryId) then
        Outcome.ok (corsText "Missing UUID" 400) kv
      else if !(matchesUUID u) then
        Outcome.ok (corsText "Invalid UUID" 400) kv
      else if env.getThrows then
        -- `getWithMetadata` is not wrapped in try/catch: the exception escapes
        Outcome.crash "KV getWithMetadata threw"
      else
        match kvGet kv u with
        | none => Outcome.ok (corsText "File not found" 404) kv
        | some entry =>
          Outcome.ok ⟨200, Body.bytes entry.value, downloadHeaders u entry.metadata⟩ kv
    -- Delete route
    else if req.method = "DELETE" ∧ jsTruthyStr req.queryId then
      let u := req.queryId.getD ""
      if !(jsTruthyStr req.queryId) then
        Outcome.ok (corsText "Missing UUID" 400) kv
      else if !(matchesUUID u) then
        Outcome.ok (corsText "Invalid UUID" 400) kv
      else if !(req.authorization == some ("Bearer " ++ env.adminToken)) then
        Outcome.ok (corsText "Forbidden" 403) kv
      else if env.deleteThrows then
        Outcome.ok (corsText "Internal Server Error" 500) kv
      else
        Outcome.ok ⟨204, Body.empty, [("Access-Control-Allow-Origin", "*")]⟩ (kvDelete kv u)
    -- Error for other HTTP methods
    else
      Outcome.ok
        ⟨405, Body.text "Method Not Allowed",
          [("Allow", "GET, POST, DELETE, OPTIONS"), ("Access-Control-Allow-Origin", "*")]⟩ kv
  -- Favicon route
  else if req.method = "GET" ∧ req.pathname = "/favicon.ico" then
    Outcome.externalFetch "https://moonlight-stream.org/favicon.ico"
  -- Default route
  else
    Outcome.ok ⟨404, Body.text "Not Found", []⟩ kv

/-! ## Concrete inputs used by the concrete-scenario theorems -/

/-- A benign environment: generous size limit, 30-day TTL, no storage
failures. -/
def env0 : Env := ⟨26214400, 2592000, "secret", false, false, false⟩

/-- A concrete canonical UUID (the one the repository documentation uses as
an example). -/
def uuid0 : String := "ab92275a-745e-4c35-ad95-83e853803a43"

/-- A valid text upload that carries no name anywhere: no `name` query
parameter and no multipart filename. -/
def noNameUploadReq : Request :=
  ⟨"POST", "/", "https://logs.example", none, none, some "text/plain", none, none, [104, 105], none⟩

/-- A text upload with a valid name but a zero-length body. -/
def emptyBodyUploadReq : Request :=
  ⟨"POST", "/", "https://logs.example", none, some "a.log", some "text/plain", none, none, [], none⟩

/-- A multipart upload whose parsed form has no `file` part. -/
def multipartNoFileReq : Request :=
  ⟨"POST", "/", "https://logs.example", none, none, some "multipart/form-data", none, none, [], none⟩

/-- A stored record whose metadata declares the type `text/plain` exactly. -/
def storedPlainEntry : KVEntry :=
  ⟨[104], some ⟨some "b.log", some "text/plain", some 1, some 5, some 5⟩⟩

/-- A download request for `uuid0`. -/
def dlRequest : Request :=
  ⟨"GET", "/", "https://logs.example", some uuid0, none, none, none, none, [], none⟩

/-- A text upload whose Content-Type header is `text/plain; charset=UTF-8`:
not one of the three supported media types verbatim, but containing
`text/plain` as a substring. -/
def charsetUploadReq : Request :=
  ⟨"POST", "/", "https://logs.example", none, some "a.log", some "text/plain; charset=UTF-8",
    none, none, [104], none⟩

/-- A valid text upload from a caller whose `Accept` header asks for HTML. -/
def htmlAcceptUploadReq : Request :=
  ⟨"POST", "/", "https://logs.example", none, some "a.log", some "text/plain", some "text/html",
    none, [104], none⟩

/-- Recognizes the rendered upload-confirmation page among response bodies. -/
def isConfirmationPage : Body → Bool
  | Body.page (PageKind.uploadSuccess _) => true
  | _ => false

/-! ## Helper lemmas -/

/-- Looking up a key right after `kvPut` stored it yields the stored entry. -/
theorem kvGet_kvPut_self (kv : KVStore) (k : String) (e : KVEntry) :
    kvGet (kvPut kv k e) k = some e := by
  simp [kvGet, kvPut]

/-- A string matching the UUID shape is nonempty. -/
theorem matchesUUID_ne_empty {s : String} (h : matchesUUID s = true) : s ≠ "" := by
  intro he
  subst he
  exact absurd h (by decide)

/-- `find?` distributes over append as a left-biased choice. -/
theorem find?_or_append {α : Type} (p : α → Bool) (l₁ l₂ : List α) :
    List.find? p (l₁ ++ l₂) = (List.find? p l₁).or (List.find? p l₂) := by
  induction l₁ with
  | nil => rfl
  | cons a t ih => cases hp : p a <;> simp [List.find?_cons, hp, ih]

/-- Filtering with a predicate implied by the search predicate does not
change the result of `find?`. -/
theorem find?_filter_of_imp {α : Type} (p q : α → Bool) (l : List α)
    (h : ∀ a, p a = true → q a = true) :
    List.find? p (List.filter q l) = List.find? p l := by
  induction l with
  | nil => rfl
  | cons a t ih =>
    cases hq : q a
    · cases hp : p a
      · simp [List.filter_cons, hq, List.find?_cons, hp, ih]
      · exact absurd (h a hp) (by simp [hq])
    · simp only [List.filter_cons, hq, if_true, cond_true, List.find?_cons]
      cases hp : p a <;> simp [hp, ih]

/-- After removing every pair with key `k`, searching for key `k` fails. -/
theorem find?_key_filter_ne (hs : List (String × String)) (k : String) :
    List.find? (fun p => p.1 == k) (List.filter (fun p => !(p.1 == k)) hs) = none := by
  induction hs with
  | nil => rfl
  | cons a t ih => cases hp : a.1 == k <;> simp [List.filter_cons, hp, List.find?_cons, ih]

/-- Reading back the key just set. -/
theorem hget_hset_self (hs : Headers) (k v : String) : hget (hset hs k v) k = some v := by
  unfold hget hset
  rw [find?_or_append, find?_key_filter_ne]
  simp [List.find?]

/-- Setting one key leaves every other key unchanged. -/
theorem hget_hset_ne (hs : Headers) (k k2 v : String) (h : ¬k2 = k) :
    hget (hset hs k2 v) k = hget hs k := by
  unfold hget hset
  rw [find?_or_append]
  rw [find?_filter_of_imp _ _ _ (fun a ha => by simp_all; exact fun he => h he.symm)]
  have hb : (k2 == k) = false := beq_eq_false_iff_ne.mpr h
  simp [List.find?, hb]

/-- The CORS header of the download-route success headers, regardless of
stored metadata. -/
theorem downloadHeaders_acao (u : String) (md : Option KVMetadata) :
    hget (downloadHeaders u md) "Access-Control-Allow-Origin" = some "*" := by
  rcases md with _ | ⟨mn, mt, ms, ml, mu⟩
  · simp [downloadHeaders, hget_hset_self]
  · simp only [downloadHeaders]
    split_ifs <;>
      simp_all [hget_hset_self, hget_hset_ne]

/-- The Content-Type of the download-route success headers: the stored type
verbatim when it is a nonempty string, the UTF-8 text default otherwise. -/
theorem downloadHeaders_contentType (u : String) (md : Option KVMetadata) :
    hget (downloadHeaders u md) "Content-Type"
      = some (match md with
          | none => "text/plain; charset=UTF-8"
          | some m =>
            match m.type with
            | none => "text/plain; charset=UTF-8"
            | some t => if t = "" then "text/plain; charset=UTF-8" else t) := by
  rcases md with _ | ⟨mn, mt, ms, ml, mu⟩
  · simp [downloadHeaders, hget_hset_self, hget_hset_ne]
  · rcases mt with _ | t
    · simp only [downloadHeaders, jsTruthyStr]
      split_ifs <;>
        simp_all [hget_hset_self, hget_hset_ne]
    · by_cases ht : t = "" <;>
      · simp only [downloadHeaders, jsTruthyStr]
        split_ifs <;>
          simp_all [hget_hset_self, hget_hset_ne]

/-- The Content-Disposition of the download-route success headers: the
stored name when it is a nonempty string, `<uuid>.txt` otherwise. -/
theorem downloadHeaders_disposition (u : String) (md : Option KVMetadata) :
    hget (downloadHeaders u md) "Content-Disposition"
      = some (match md with
          | none => "attachment; filename=\"" ++ u ++ ".txt\""
          | some m =>
            match m.name with
            | none => "attachment; filename=\"" ++ u ++ ".txt\""
            | some n =>
              if n = "" then "attachment; filename=\"" ++ u ++ ".txt\""
              else "attachment; filename=\"" ++ n ++ "\"") := by
  rcases md with _ | ⟨mn, mt, ms, ml, mu⟩
  · simp [downloadHeaders, hget_hset_self, hget_hset_ne]
  · rcases mn with _ | n
    · simp only [downloadHeaders, jsTruthyStr]
      split_ifs <;>
        simp_all [hget_hset_self, hget_hset_ne]
    · by_cases hn : n = "" <;>
      · simp only [downloadHeaders, jsTruthyStr]
        split_ifs <;>
          simp_all [hget_hset_self, hget_hset_ne]

/-! ## C1 -/

/-- C1 counterexample: a text/plain upload that passes the content-type,
content and size checks but carries no name anywhere is answered with the
`Invalid File Name` 400 failure and nothing is persisted — not resolved to
a `<generated-id>.txt` fallback as the claim states. -/
theorem C1_counterexample :
    fetch noNameUploadReq env0 [] uuid0 0
      = Outcome.ok (corsText "Invalid File Name" 400) [] := by
  rfl

/-- The common upload tail rejects every resolved name that is absent,
empty or invalid with `Invalid File Name` (400), persisting nothing. -/
theorem storeUpload_invalid_name (req : Request) (env : Env) (kv : KVStore) (g : String)
    (now : Nat) (ty : String) (c : List Nat) (name : Option String)
    (hsize : c.length ≤ env.maxFileSize)
    (hname : jsTruthyStr name = false ∨ validateFilename (name.getD "") = false) :
    storeUpload req env kv g now ty (some c) name
      = Outcome.ok (corsText "Invalid File Name" 400) kv := by
  have hns : ¬ c.length > env.maxFileSize := by omega
  rcases hname with hname | hname <;> simp [storeUpload, hns, hname]

/-- C1 (amended): for every POST upload that passes the content-type,
content and size checks — on any of the three supported branches, selected
by substring containment — whose resolved name is absent (no query name on
the text and binary branches, an absent-or-empty filename on the multipart
branch), the handler fails with `Invalid File Name` (400) and persists
nothing, exactly as for a present-but-invalid name; no
`<generated-id>.txt` fallback exists. -/
theorem C1_absent_name_rejected (req : Request) (env : Env) (kv : KVStore) (g : String)
    (now : Nat)
    (hp : req.pathname = "/") (hm : req.method = "POST")
    (hct : jsTruthyStr req.contentType = true)
    (hbr :
      (jsIncludes (req.contentType.getD "") "text/plain" = true
        ∧ req.body.length ≤ env.maxFileSize
        ∧ (jsTruthyStr req.queryName = false
            ∨ validateFilename (req.queryName.getD "") = false))
      ∨ (jsIncludes (req.contentType.getD "") "text/plain" = false
        ∧ jsIncludes (req.contentType.getD "") "application/octet-stream" = true
        ∧ req.body.length ≤ env.maxFileSize
        ∧ (jsTruthyStr req.queryName = false
            ∨ validateFilename (req.queryName.getD "") = false))
      ∨ (jsIncludes (req.contentType.getD "") "text/plain" = false
        ∧ jsIncludes (req.contentType.getD "") "application/octet-stream" = false
        ∧ jsIncludes (req.contentType.getD "") "multipart/form-data" = true
        ∧ ∃ f, req.formFile = some f
            ∧ f.content.length ≤ env.maxFileSize
            ∧ (f.name = "" ∨ validateFilename f.name = false))) :
    fetch req env kv g now = Outcome.ok (corsText "Invalid File Name" 400) kv := by
  rcases hbr with ⟨h1, hs, hn⟩ | ⟨h1, h2, hs, hn⟩ | ⟨h1, h2, h3, f, hf, hs, hn⟩
  · have hlem := storeUpload_invalid_name req env kv g now "text/plain; charset=UTF-8"
      req.body req.queryName hs hn
    simp [fetch, hp, hm, hct, h1, hlem]
  · have hlem := storeUpload_invalid_name req env kv g now "application/octet-stream"
      req.body req.queryName hs hn
    simp [fetch, hp, hm, hct, h1, h2, hlem]
  · have hn2 : jsTruthyStr (if f.name ≠ "" then some f.name else none) = false
        ∨ validateFilename ((if f.name ≠ "" then some f.name else none).getD "") = false := by
      rcases hn with hn | hn
      · left
        simp [hn, jsTruthyStr]
      · by_cases hfe : f.name = ""
        · left
          simp [hfe, jsTruthyStr]
        · right
          simp [hfe, hn]
    have hlem := storeUpload_invalid_name req env kv g now f.type f.content
      (if f.name ≠ "" then some f.name else none) hs hn2
    simp [fetch, hp, hm, hct, h1, h2, h3, hf]
    simpa [ite_not] using hlem

/-- C1 witness: the amended statement applied at a concrete multipart
upload whose form file carries an empty filename. -/
theorem C1_absent_name_rejected_witness :
    fetch ⟨"POST", "/", "https://logs.example", none, none, some "multipart/form-data", none,
        none, [], some ⟨"", "text/plain", [104]⟩⟩ env0 [] uuid0 5
      = Outcome.ok (corsText "Invalid File Name" 400) [] :=
  C1_absent_name_rejected _ env0 [] uuid0 5 rfl rfl (by decide)
    (Or.inr (Or.inr ⟨by decide, by decide, by decide,
      ⟨"", "text/plain", [104]⟩, rfl, by decide, Or.inl rfl⟩))

/-! ## C2 -/

/-- C2 counterexample: an upload whose extracted body has zero length is not
rejected: with a valid name it is accepted with status 201 and a record with
empty content is persisted. -/
theorem C2_counterexample :
    fetch emptyBodyUploadReq env0 [] uuid0 7
      = Outcome.ok
          ⟨201, Body.text "https://logs.example/?id=ab92275a-745e-4c35-ad95-83e853803a43",
            [("Location", "https://logs.example/?id=ab92275a-745e-4c35-ad95-83e853803a43"),
             ("Expires", "2592000007"),
             ("Access-Control-Allow-Origin", "*"),
             ("Access-Control-Expose-Headers", "Location")]⟩
          [(uuid0,
            ⟨[], some ⟨some "a.log", some "text/plain; charset=UTF-8", some 0, some 7, some 7⟩⟩)] := by
  rfl

/-- C2 (amended): the `Invalid Contents` guard fires only when no content
buffer was produced at all, which cannot happen on the supported branches; a
zero-length extracted body passes it, so an upload with empty content and a
valid name succeeds with 201 and persists a record whose content is empty. -/
theorem C2_empty_body_persisted (req : Request) (env : Env) (kv : KVStore) (g : String)
    (now : Nat)
    (hp : req.pathname = "/") (hm : req.method = "POST")
    (hct : req.contentType = some "text/plain")
    (hname : req.queryName = some "a.log")
    (hbody : req.body = [])
    (hput : env.putThrows = false)
    (haccept : req.accept = none) :
    fetch req env kv g now
      = Outcome.ok
          ⟨201, Body.text (req.origin ++ "/?id=" ++ g),
            [("Location", req.origin ++ "/?id=" ++ g),
             ("Expires", dateToUTCString (now + env.expirationTtl * 1000)),
             ("Access-Control-Allow-Origin", "*"),
             ("Access-Control-Expose-Headers", "Location")]⟩
          (kvPut kv g
            ⟨[], some ⟨some "a.log", some "text/plain; charset=UTF-8", some 0, some now, some now⟩⟩) := by
  have hinc : jsIncludes "text/plain" "text/plain" = true := by decide
  have hval : validateFilename "a.log" = true := by decide
  simp [fetch, storeUpload, hp, hm, hct, hname, hbody, hput, haccept, hinc, hval, jsTruthyStr]

/-- C2 witness: the amended statement applied at a concrete empty-body
upload. -/
theorem C2_empty_body_persisted_witness :
    fetch emptyBodyUploadReq env0 [] uuid0 9
      = Outcome.ok
          ⟨201, Body.text (emptyBodyUploadReq.origin ++ "/?id=" ++ uuid0),
            [("Location", emptyBodyUploadReq.origin ++ "/?id=" ++ uuid0),
             ("Expires", dateToUTCString (9 + env0.expirationTtl * 1000)),
             ("Access-Control-Allow-Origin", "*"),
             ("Access-Control-Expose-Headers", "Location")]⟩
          (kvPut [] uuid0
            ⟨[], some ⟨some "a.log", some "text/plain; charset=UTF-8", some 0, some 9, some 9⟩⟩) :=
  C2_empty_body_persisted emptyBodyUploadReq env0 [] uuid0 9 rfl rfl rfl rfl rfl rfl rfl

/-! ## C3 -/

/-- C3: the filename validator accepts a candidate name exactly when it ends
with the case-sensitive suffix `.txt`, `.log` or `.dmp`; every other name,
including one with no extension at all, is rejected. -/
theorem C3_validateFilename_iff (name : String) :
    validateFilename name = true ↔
      ".txt".data <:+ name.data ∨ ".log".data <:+ name.data ∨ ".dmp".data <:+ name.data := by
  simp [validateFilename, jsEndsWith, or_assoc]

/-! ## C4 -/

/-- C4: uploading any byte content with query name `a.log` and content type
`text/plain` (within the size limit, with the store succeeding) and then
downloading with the returned identifier yields status 200, a body
byte-identical to the uploaded content, a Content-Disposition containing
`a.log`, and a Content-Type starting with `text/plain`. -/
theorem C4_roundtrip (C : List Nat) (env : Env) (kv : KVStore) (g g2 o : String)
    (now now2 : Nat)
    (hg : matchesUUID g = true)
    (hsize : C.length ≤ env.maxFileSize)
    (hput : env.putThrows = false) (hgt : env.getThrows = false) :
    ∃ kv2 dresp,
      fetch ⟨"POST", "/", o, none, some "a.log", some "text/plain", none, none, C, none⟩
          env kv g now
        = Outcome.ok
            ⟨201, Body.text (o ++ "/?id=" ++ g),
              [("Location", o ++ "/?id=" ++ g),
               ("Expires", dateToUTCString (now + env.expirationTtl * 1000)),
               ("Access-Control-Allow-Origin", "*"),
               ("Access-Control-Expose-Headers", "Location")]⟩ kv2
      ∧ fetch ⟨"GET", "/", o, some g, none, none, none, none, [], none⟩ env kv2 g2 now2
          = Outcome.ok dresp kv2
      ∧ dresp.status = 200
      ∧ dresp.body = Body.bytes C
      ∧ (∃ d, hget dresp.headers "Content-Disposition" = some d ∧ jsIncludes d "a.log" = true)
      ∧ (∃ t, hget dresp.headers "Content-Type" = some t ∧ "text/plain".data <+: t.data) := by
  have hne : g ≠ "" := matchesUUID_ne_empty hg
  have hns : ¬ C.length > env.maxFileSize := by omega
  have hinc : jsIncludes "text/plain" "text/plain" = true := by decide
  have hval : validateFilename "a.log" = true := by decide
  refine
    ⟨kvPut kv g
        ⟨C, some ⟨some "a.log", some "text/plain; charset=UTF-8", some C.length, some now, some now⟩⟩,
      ⟨200, Body.bytes C,
        downloadHeaders g
          (some ⟨some "a.log", some "text/plain; charset=UTF-8", some C.length, some now, some now⟩)⟩,
      ?_, ?_, rfl, rfl, ?_, ?_⟩
  · simp [fetch, storeUpload, hns, hinc, hval, hput, jsTruthyStr]
  · have hkv :
        kvGet
            (kvPut kv g
              ⟨C, some ⟨some "a.log", some "text/plain; charset=UTF-8", some C.length, some now, some now⟩⟩)
            g
          = some
              ⟨C, some ⟨some "a.log", some "text/plain; charset=UTF-8", some C.length, some now, some now⟩⟩ :=
      kvGet_kvPut_self _ _ _
    simp [fetch, hg, hne, hgt, hkv, jsTruthyStr]
  · refine ⟨"attachment; filename=\"a.log\"", ?_, by decide⟩
    have h := downloadHeaders_disposition g
      (some ⟨some "a.log", some "text/plain; charset=UTF-8", some C.length, some now, some now⟩)
    simpa using h
  · refine ⟨"text/plain; charset=UTF-8", ?_, by decide⟩
    have h := downloadHeaders_contentType g
      (some ⟨some "a.log", some "text/plain; charset=UTF-8", some C.length, some now, some now⟩)
    simpa using h

/-- C4 witness: the round trip at a concrete two-byte content. -/
theorem C4_roundtrip_witness :
    ∃ kv2 dresp,
      fetch ⟨"POST", "/", "https://logs.example", none, some "a.log", some "text/plain", none,
            none, [104, 105], none⟩ env0 [] uuid0 7
        = Outcome.ok
            ⟨201, Body.text ("https://logs.example" ++ "/?id=" ++ uuid0),
              [("Location", "https://logs.example" ++ "/?id=" ++ uuid0),
               ("Expires", dateToUTCString (7 + env0.expirationTtl * 1000)),
               ("Access-Control-Allow-Origin", "*"),
               ("Access-Control-Expose-Headers", "Location")]⟩ kv2
      ∧ fetch ⟨"GET", "/", "https://logs.example", some uuid0, none, none, none, none, [], none⟩
            env0 kv2 uuid0 9
          = Outcome.ok dresp kv2
      ∧ dresp.status = 200
      ∧ dresp.body = Body.bytes [104, 105]
      ∧ (∃ d, hget dresp.headers "Content-Disposition" = some d ∧ jsIncludes d "a.log" = true)
      ∧ (∃ t, hget dresp.headers "Content-Type" = some t ∧ "text/plain".data <+: t.data) :=
  C4_roundtrip [104, 105] env0 [] uuid0 uuid0 "https://logs.example" 7 9
    (by decide) (by decide) rfl rfl

/-! ## C5 -/

/-- C5 counterexample: a download of a record whose stored metadata type is
exactly `text/plain` answers with Content-Type `text/plain` verbatim, which
is not the `text/plain; charset=UTF-8` default the claim requires for that
case. -/
theorem C5_counterexample :
    (match fetch dlRequest env0 [(uuid0, storedPlainEntry)] uuid0 9 with
     | Outcome.ok resp _ => hget resp.headers "Content-Type"
     | _ => none) = some "text/plain"
    ∧ ("text/plain" : String) ≠ "text/plain; charset=UTF-8" := by
  exact ⟨rfl, by decide⟩

/-- C5 (amended): on a successful download the Content-Type header is the
stored metadata type verbatim whenever that type is a nonempty string —
including when it is exactly `text/plain`; the `text/plain; charset=UTF-8`
default is used only when the metadata or its type is absent or the type is
the empty string. -/
theorem C5_contentType_verbatim (env : Env) (kv : KVStore) (u g o : String) (now : Nat)
    (entry : KVEntry)
    (hu : matchesUUID u = true) (hgt : env.getThrows = false)
    (hkv : kvGet kv u = some entry) :
    ∃ resp : Response,
      fetch ⟨"GET", "/", o, some u, none, none, none, none, [], none⟩ env kv g now
        = Outcome.ok resp kv
      ∧ resp.status = 200
      ∧ resp.body = Body.bytes entry.value
      ∧ hget resp.headers "Content-Type"
          = some (match entry.metadata with
              | none => "text/plain; charset=UTF-8"
              | some m =>
                match m.type with
                | none => "text/plain; charset=UTF-8"
                | some t => if t = "" then "text/plain; charset=UTF-8" else t) := by
  have hne : u ≠ "" := matchesUUID_ne_empty hu
  refine ⟨⟨200, Body.bytes entry.value, downloadHeaders u entry.metadata⟩, ?_, rfl, rfl, ?_⟩
  · simp [fetch, hu, hne, hgt, hkv, jsTruthyStr]
  · exact downloadHeaders_contentType u entry.metadata

/-- C5 witness: the amended statement at the concrete stored record with
type exactly `text/plain`. -/
theorem C5_contentType_verbatim_witness :
    ∃ resp : Response,
      fetch ⟨"GET", "/", "https://logs.example", some uuid0, none, none, none, none, [], none⟩
          env0 [(uuid0, storedPlainEntry)] uuid0 9
        = Outcome.ok resp [(uuid0, storedPlainEntry)]
      ∧ resp.status = 200
      ∧ resp.body = Body.bytes storedPlainEntry.value
      ∧ hget resp.headers "Content-Type"
          = some (match storedPlainEntry.metadata with
              | none => "text/plain; charset=UTF-8"
              | some m =>
                match m.type with
                | none => "text/plain; charset=UTF-8"
                | some t => if t = "" then "text/plain; charset=UTF-8" else t) :=
  C5_contentType_verbatim env0 [(uuid0, storedPlainEntry)] uuid0 uuid0 "https://logs.example" 9
    storedPlainEntry (by decide) rfl rfl

/-! ## C6 -/

/-- C6 counterexample: a DELETE on the root path with no `id` query
parameter does not reach the delete route at all (its guard requires a
truthy `id`): it falls through to the 405 `Method Not Allowed` response,
not to a `Missing UUID` 400. -/
theorem C6_counterexample :
    fetch ⟨"DELETE", "/", "https://logs.example", none, none, none, none, none, [], none⟩
        env0 [] uuid0 0
      = Outcome.ok
          ⟨405, Body.text "Method Not Allowed",
            [("Allow", "GET, POST, DELETE, OPTIONS"), ("Access-Control-Allow-Origin", "*")]⟩
          [] := by
  rfl

/-- C6 (amended): a DELETE whose `id` is absent or empty skips the delete
route (whose internal `Missing UUID` check is unreachable) and is answered
405 `Method Not Allowed`; a DELETE whose `id` is a nonempty string not of
canonical UUID shape fails with `Invalid UUID` (400). -/
theorem C6_delete_id_validation (req : Request) (env : Env) (kv : KVStore) (g : String)
    (now : Nat)
    (hp : req.pathname = "/") (hm : req.method = "DELETE") :
    ((req.queryId = none ∨ req.queryId = some "") →
      fetch req env kv g now
        = Outcome.ok
            ⟨405, Body.text "Method Not Allowed",
              [("Allow", "GET, POST, DELETE, OPTIONS"),
               ("Access-Control-Allow-Origin", "*")]⟩ kv)
    ∧ (∀ s, req.queryId = some s → s ≠ "" → matchesUUID s = false →
      fetch req env kv g now = Outcome.ok (corsText "Invalid UUID" 400) kv) := by
  constructor
  · rintro (hid | hid) <;> simp [fetch, hp, hm, hid, jsTruthyStr]
  · intro s hid hne hmu
    simp [fetch, hp, hm, hid, hne, hmu, jsTruthyStr]

/-- C6 witness: both amended branches at concrete DELETE requests, one with
no `id` and one with the malformed `id` `zzz`. -/
theorem C6_delete_id_validation_witness :
    (fetch ⟨"DELETE", "/", "https://logs.example", none, none, none, none, none, [], none⟩
        env0 [(uuid0, storedPlainEntry)] uuid0 3
      = Outcome.ok
          ⟨405, Body.text "Method Not Allowed",
            [("Allow", "GET, POST, DELETE, OPTIONS"), ("Access-Control-Allow-Origin", "*")]⟩
          [(uuid0, storedPlainEntry)])
    ∧ (fetch ⟨"DELETE", "/", "https://logs.example", some "zzz", none, none, none, none, [], none⟩
        env0 [(uuid0, storedPlainEntry)] uuid0 3
      = Outcome.ok (corsText "Invalid UUID" 400) [(uuid0, storedPlainEntry)]) :=
  ⟨(C6_delete_id_validation _ env0 [(uuid0, storedPlainEntry)] uuid0 3 rfl rfl).1 (Or.inl rfl),
   (C6_delete_id_validation _ env0 [(uuid0, storedPlainEntry)] uuid0 3 rfl rfl).2 "zzz" rfl
     (by decide) (by decide)⟩

/-! ## C7 -/

/-- C7 counterexample: a storage exception raised by the download route
`getWithMetadata` call is not caught — the handler outcome is the raw
propagated error, not an `Internal Server Error` 500 response. -/
theorem C7_counterexample :
    fetch dlRequest { env0 with getThrows := true } [(uuid0, storedPlainEntry)] uuid0 0
      = Outcome.crash "KV getWithMetadata threw" := by
  rfl

/-- C7 (amended): the upload `put` and the delete `delete` storage calls are
wrapped in try/catch and an exception there is downgraded to an
`Internal Server Error` 500 response; the download `getWithMetadata` call is
not wrapped, and its exception propagates raw out of the handler. -/
theorem C7_storage_error_handling :
    (∀ (req : Request) (env : Env) (kv : KVStore) (g : String) (now : Nat)
        (ty : String) (c : List Nat) (nm : String),
      c.length ≤ env.maxFileSize → nm ≠ "" → validateFilename nm = true →
      env.putThrows = true →
      storeUpload req env kv g now ty (some c) (some nm)
        = Outcome.ok (corsText "Internal Server Error" 500) kv)
    ∧ (∀ (req : Request) (env : Env) (kv : KVStore) (g : String) (now : Nat) (s : String),
      req.pathname = "/" → req.method = "DELETE" → req.queryId = some s →
      matchesUUID s = true →
      req.authorization = some ("Bearer " ++ env.adminToken) →
      env.deleteThrows = true →
      fetch req env kv g now = Outcome.ok (corsText "Internal Server Error" 500) kv)
    ∧ (∀ (req : Request) (env : Env) (kv : KVStore) (g : String) (now : Nat) (s : String),
      req.pathname = "/" → req.method = "GET" → req.queryId = some s →
      matchesUUID s = true → env.getThrows = true →
      fetch req env kv g now = Outcome.crash "KV getWithMetadata threw") := by
  refine ⟨?_, ?_, ?_⟩
  · intro req env kv g now ty c nm hsize hne hval hput
    have hns : ¬ c.length > env.maxFileSize := by omega
    simp [storeUpload, hns, hne, hval, hput, jsTruthyStr]
  · intro req env kv g now s hp hm hid hmu hauth hdel
    have hne : s ≠ "" := matchesUUID_ne_empty hmu
    simp [fetch, hp, hm, hid, hne, hmu, hauth, hdel, jsTruthyStr]
  · intro req env kv g now s hp hm hid hmu hgt
    have hne : s ≠ "" := matchesUUID_ne_empty hmu
    simp [fetch, hp, hm, hid, hne, hmu, hgt, jsTruthyStr]

/-- C7 witness: the three amended branches at concrete requests — a put
that throws during upload, a delete that throws, and a get that throws. -/
theorem C7_storage_error_handling_witness :
    (storeUpload noNameUploadReq { env0 with putThrows := true } [] uuid0 0
        "text/plain; charset=UTF-8" (some [104]) (some "a.log")
      = Outcome.ok (corsText "Internal Server Error" 500) [])
    ∧ (fetch ⟨"DELETE", "/", "https://logs.example", some uuid0, none, none, none,
          some ("Bearer " ++ env0.adminToken), [], none⟩
        { env0 with deleteThrows := true } [] uuid0 0
      = Outcome.ok (corsText "Internal Server Error" 500) [])
    ∧ (fetch dlRequest { env0 with getThrows := true } [] uuid0 0
      = Outcome.crash "KV getWithMetadata threw") :=
  ⟨C7_storage_error_handling.1 noNameUploadReq { env0 with putThrows := true } [] uuid0 0
      "text/plain; charset=UTF-8" [104] "a.log" (by decide) (by decide) (by decide) rfl,
   C7_storage_error_handling.2.1 _ { env0 with deleteThrows := true } [] uuid0 0 uuid0
      rfl rfl rfl (by decide) rfl rfl,
   C7_storage_error_handling.2.2 dlRequest { env0 with getThrows := true } [] uuid0 0 uuid0
      rfl rfl rfl (by decide) rfl⟩

/-! ## C8 -/

/-- C8 counterexample: the Content-Type header
`text/plain; charset=UTF-8` is none of the three supported media types, yet
the upload is not rejected with 415: the substring test routes it to the
text branch and it succeeds with 201, persisting a record. -/
theorem C8_counterexample :
    (("text/plain; charset=UTF-8" : String) ≠ "text/plain"
      ∧ ("text/plain; charset=UTF-8" : String) ≠ "application/octet-stream"
      ∧ ("text/plain; charset=UTF-8" : String) ≠ "multipart/form-data")
    ∧ fetch charsetUploadReq env0 [] uuid0 3
      = Outcome.ok
          ⟨201, Body.text "https://logs.example/?id=ab92275a-745e-4c35-ad95-83e853803a43",
            [("Location", "https://logs.example/?id=ab92275a-745e-4c35-ad95-83e853803a43"),
             ("Expires", "2592000003"),
             ("Access-Control-Allow-Origin", "*"),
             ("Access-Control-Expose-Headers", "Location")]⟩
          [(uuid0,
            ⟨[104],
             some ⟨some "a.log", some "text/plain; charset=UTF-8", some 1, some 3, some 3⟩⟩)] := by
  exact ⟨by decide, rfl⟩

/-- C8 (amended): an upload whose Content-Type header is present fails with
`Unsupported Media Type` (415), persisting nothing, exactly when the header
contains none of `text/plain`, `application/octet-stream` and
`multipart/form-data` as a substring — containment, not equality, selects
the branch. -/
theorem C8_unsupported_mediatype (req : Request) (env : Env) (kv : KVStore) (g : String)
    (now : Nat)
    (hp : req.pathname = "/") (hm : req.method = "POST")
    (hct : jsTruthyStr req.contentType = true)
    (h1 : jsIncludes (req.contentType.getD "") "text/plain" = false)
    (h2 : jsIncludes (req.contentType.getD "") "application/octet-stream" = false)
    (h3 : jsIncludes (req.contentType.getD "") "multipart/form-data" = false) :
    fetch req env kv g now = Outcome.ok (corsText "Unsupported Media Type" 415) kv := by
  simp [fetch, hp, hm, hct, h1, h2, h3]

/-- C8 witness: the amended statement at a concrete `application/json`
upload. -/
theorem C8_unsupported_mediatype_witness :
    fetch ⟨"POST", "/", "https://logs.example", none, none, some "application/json", none, none,
        [104], none⟩ env0 [] uuid0 0
      = Outcome.ok (corsText "Unsupported Media Type" 415) [] :=
  C8_unsupported_mediatype _ env0 [] uuid0 0 rfl rfl (by decide) (by decide) (by decide)
    (by decide)

/-! ## C9 -/

/-- C9 counterexample: the HTML upload-confirmation response (served to a
caller whose Accept header prefers HTML) is produced by the upload route on
the root path with status 200 but carries no
`Access-Control-Allow-Origin` header at all. -/
theorem C9_counterexample :
    (match fetch htmlAcceptUploadReq env0 [] uuid0 0 with
     | Outcome.ok resp _ => hget resp.headers "Access-Control-Allow-Origin"
     | _ => some "unreachable") = none := by
  rfl

/-- C9 (amended): every response produced by the upload, download and delete
routes on the root path carries `Access-Control-Allow-Origin: *`, with one
exception — the HTML upload-confirmation page, whose response has only a
Content-Type header. -/
theorem C9_cors_header (req : Request) (env : Env) (kv kv2 : KVStore) (g : String) (now : Nat)
    (resp : Response)
    (hp : req.pathname = "/")
    (hm : req.method = "POST"
        ∨ (req.method = "GET" ∧ req.queryId.isSome)
        ∨ (req.method = "DELETE" ∧ jsTruthyStr req.queryId = true))
    (hok : fetch req env kv g now = Outcome.ok resp kv2)
    (hpage : isConfirmationPage resp.body = false) :
    hget resp.headers "Access-Control-Allow-Origin" = some "*" := by
  rcases hm with hm | ⟨hm, hid⟩ | ⟨hm, hid⟩
  · rw [fetch, hp, hm] at hok
    simp only [storeUpload] at hok
    simp at hok
    repeat' split at hok
    all_goals try (rw [Outcome.ok.injEq] at hok)
    all_goals try (obtain ⟨h1, h2⟩ := hok; subst h1)
    all_goals first
      | exact downloadHeaders_acao _ _
      | simp_all [corsText, hget, List.find?, isConfirmationPage]
  · obtain ⟨s, hs⟩ := Option.isSome_iff_exists.mp hid
    rw [fetch, hp, hm, hs] at hok
    simp at hok
    repeat' split at hok
    all_goals try (rw [Outcome.ok.injEq] at hok)
    all_goals try (obtain ⟨h1, h2⟩ := hok; subst h1)
    all_goals first
      | exact downloadHeaders_acao _ _
      | simp_all [corsText, hget, List.find?, isConfirmationPage]
  · rw [fetch, hp, hm] at hok
    simp [hid] at hok
    repeat' split at hok
    all_goals try (rw [Outcome.ok.injEq] at hok)
    all_goals try (obtain ⟨h1, h2⟩ := hok; subst h1)
    all_goals first
      | exact downloadHeaders_acao _ _
      | simp_all [corsText, hget, List.find?, isConfirmationPage]

/-- C9 witness: the amended statement at a concrete DELETE whose 204
response carries the CORS header. -/
theorem C9_cors_header_witness :
    hget (Response.mk 204 Body.empty [("Access-Control-Allow-Origin", "*")]).headers
        "Access-Control-Allow-Origin"
      = some "*" :=
  C9_cors_header
    ⟨"DELETE", "/", "https://logs.example", some uuid0, none, none, none,
      some ("Bearer " ++ env0.adminToken), [], none⟩
    env0 [] [] uuid0 0 (Response.mk 204 Body.empty [("Access-Control-Allow-Origin", "*")])
    rfl (Or.inr (Or.inr ⟨rfl, by decide⟩)) (by decide) rfl

/-! ## C10 -/

/-- C10: a multipart upload whose parsed form has no `file` part makes the
handler dereference the absent part: the outcome is an unhandled runtime
error, not any of the specified 4xx error responses. -/
theorem C10_missing_file_part_crashes :
    fetch multipartNoFileReq env0 [] uuid0 0 = Outcome.crash "TypeError: null file part" := by
  rfl
